import Mathlib

set_option linter.unusedVariables false

/-!
Verification of the Fivetran orchestration core (`src/fivetran.rs`).

The Rust code is shallowly embedded: the typed wire data model becomes Lean
structures and inductives; the two polling loops become recursive functions
over the (finite prefix of the) sequence of remote responses, with `none`
modelling "the unbounded loop has not yet returned after consuming the given
responses"; the teardown paths become action traces executed against a
deletion oracle; `chrono` timestamp parsing and `Utc::now()` are passed in as
explicit parameters (timestamps are modelled at whole-second granularity as
`Int` Unix seconds).
-/

namespace Fivetran

/-- Wire enumeration of regions (`enum Region` in fivetran.rs). -/
inductive Region where
  | AWS_AP_NORTHEAST_1 | AWS_AP_SOUTHEAST_1 | AWS_AP_SOUTHEAST_2 | AWS_AP_SOUTH_1
  | AWS_CA_CENTRAL_1 | AWS_EU_CENTRAL_1 | AWS_EU_WEST_1 | AWS_EU_WEST_2
  | AWS_US_EAST_1 | AWS_US_EAST_2 | AWS_US_GOV_WEST_1 | AWS_US_WEST_2
  | AZURE_AUSTRALIAEAST | AZURE_CANADACENTRAL | AZURE_CENTRALINDIA | AZURE_CENTRALUS
  | AZURE_EASTUS | AZURE_EASTUS2 | AZURE_JAPANEAST | AZURE_SOUTHEASTASIA
  | AZURE_UAENORTH | AZURE_UKSOUTH | AZURE_WESTEUROPE
  | GCP_ASIA_NORTHEAST1 | GCP_ASIA_SOUTH1 | GCP_ASIA_SOUTHEAST1 | GCP_ASIA_SOUTHEAST2
  | GCP_AUSTRALIA_SOUTHEAST1 | GCP_EUROPE_WEST2 | GCP_EUROPE_WEST3
  | GCP_NORTHAMERICA_NORTHEAST1 | GCP_US_CENTRAL1 | GCP_US_EAST4 | GCP_US_WEST1
deriving DecidableEq

/-- Wire enumeration of time-zone offsets (`enum TimeZoneOffset`). -/
inductive TimeZoneOffset where
  | minus_11 | minus_10 | minus_9 | minus_8 | minus_7 | minus_6 | minus_5 | minus_4
  | minus_3 | minus_2 | minus_1 | utc
  | plus_1 | plus_2 | plus_3 | plus_4 | plus_5 | plus_6 | plus_7 | plus_8
  | plus_9 | plus_10 | plus_11 | plus_12
deriving DecidableEq

/-- `enum DestinationSetupStatus` in fivetran.rs. -/
inductive DestinationSetupStatus where
  | broken | connected | incomplete
deriving DecidableEq

/-- `struct GroupResponse` in fivetran.rs. -/
structure GroupResponse where
  id : String
  name : String
  created_at : String
deriving DecidableEq

/-- `struct DestinationExtendedResponse` in fivetran.rs. -/
structure DestinationExtendedResponse where
  id : String
  service : String
  region : Region
  setup_status : DestinationSetupStatus
  group_id : String
  time_zone_offset : TimeZoneOffset
  daylight_saving_time_enabled : Option Bool
  local_processing_agent_id : Option String
  private_link_id : Option String
  proxy_agent_id : Option String
  hybrid_deployment_agent_id : Option String
deriving DecidableEq

/-- `struct DestinationResponse` (list item) in fivetran.rs. -/
structure DestinationResponse where
  group_id : String
  id : String
  region : Region
  service : String
  setup_status : DestinationSetupStatus
  time_zone_offset : TimeZoneOffset
deriving DecidableEq

/-- `struct ListDestinationResponse` in fivetran.rs. -/
structure ListDestinationResponse where
  items : List DestinationResponse
deriving DecidableEq

/-- `enum NewConnectorRequestV1SyncFrequency` (`repr(u16)`). -/
inductive NewConnectorRequestV1SyncFrequency where
  | Value1 | Value5 | Value15 | Value30 | Value60 | Value120 | Value180
  | Value360 | Value480 | Value720 | Value1440
deriving DecidableEq

/-- `struct ConnectorStatusResponse` in fivetran.rs. -/
structure ConnectorStatusResponse where
  update_state : String
  setup_state : String
  sync_state : String
  is_historical_sync : Bool
  schema_status : Option String
  rescheduled_for : Option String
deriving DecidableEq

/-- `struct ConnectorResponseV1` in fivetran.rs. -/
structure ConnectorResponseV1 where
  id : String
  service : String
  schema : String
  paused : Bool
  status : ConnectorStatusResponse
  sync_frequency : NewConnectorRequestV1SyncFrequency
  group_id : String
  service_version : Int
  created_at : String
  pause_after_trial : Bool
  schedule_type : String
  daily_sync_time : Option String
  succeeded_at : Option String
  connected_by : Option String
  failed_at : Option String
  private_link_id : Option String
  proxy_agent_id : Option String
  hybrid_deployment_agent_id : Option String
deriving DecidableEq

/-- `struct ConnectorResponse` (list item) in fivetran.rs. -/
structure ConnectorResponse where
  id : String
  service : String
  schema : String
  paused : Bool
  status : ConnectorStatusResponse
  sync_frequency : Nat
  group_id : String
  connected_by : String
  created_at : String
  pause_after_trial : Bool
  schedule_type : String
  daily_sync_time : Option String
  succeeded_at : Option String
  failed_at : Option String
deriving DecidableEq

/-- `struct ConnectorList` in fivetran.rs. -/
structure ConnectorList where
  items : List ConnectorResponse
deriving DecidableEq

/-- `Duration::num_minutes` of chrono on a whole-second duration: the number
of whole minutes, with Rust `i64` division truncating toward zero. -/
def num_minutes (secs : Int) : Int :=
  secs.tdiv 60

/-- `fn is_old(created_at: &str) -> bool` (fivetran.rs lines 156-163).
`chrono::DateTime::parse_from_str(created_at, "%+")` is modelled by the
explicit `parse` parameter (`none` = parse error, `some t` = the parsed
instant as Unix seconds) and `Utc::now()` by `now`;
`Utc::now().signed_duration_since(created_at)` is then `now - t` seconds. -/
def is_old (now : Int) (parse : String → Option Int) (created_at : String) : Bool :=
  match parse created_at with
  | none => true
  | some t => num_minutes (now - t) > 15

/-- Claim C8: `is_old` is total on every `created_at` input (it is a total
Lean function of the parse outcome), and when the timestamp fails to parse
the resource is classified as old. -/
theorem is_old_parse_failure_classified_old (now : Int) (parse : String → Option Int)
    (s : String) (hp : parse s = none) : is_old now parse s = true := by
  simp [is_old, hp]

/-- Witness for C8: a concrete unparseable timestamp is classified old. -/
theorem is_old_parse_failure_classified_old_witness :
    is_old 0 (fun _ => none) "not-a-timestamp" = true :=
  is_old_parse_failure_classified_old 0 (fun _ => none) "not-a-timestamp" rfl

/-- Claim C1 counterexample: a resource created exactly 15 minutes
(900 seconds) before `now` is NOT classified as old (`num_minutes = 15` and
the comparison is the strict `> 15`), contradicting the claimed inclusive
boundary. Concrete input: `now = 900`, `created_at` parsing to instant `0`. -/
theorem is_old_exact_fifteen_minutes_not_old :
    is_old 900 (fun _ => some 0) "1970-01-01T00:00:00Z" = false := by
  decide

/-- Claim C1 (amended): for every resource whose `created_at` parses, a
resource created exactly 15 minutes before `now` is NOT old (the 15-minute
boundary is exclusive: `is_old` requires strictly more than 15 whole
minutes); one created 16 minutes ago is old, and one created 14 minutes ago
is not. -/
theorem is_old_boundary (now t : Int) (parse : String → Option Int) (s : String)
    (hp : parse s = some t) :
    (now - t = 15 * 60 → is_old now parse s = false) ∧
    (now - t = 16 * 60 → is_old now parse s = true) ∧
    (now - t = 14 * 60 → is_old now parse s = false) := by
  refine ⟨fun h => ?_, fun h => ?_, fun h => ?_⟩ <;>
    simp only [is_old, hp, h, num_minutes] <;> decide

/-- Witness for C1 (amended): the three boundary cases at concrete instants. -/
theorem is_old_boundary_witness :
    is_old 900 (fun _ => some 0) "t" = false ∧
    is_old 960 (fun _ => some 0) "t" = true ∧
    is_old 840 (fun _ => some 0) "t" = false :=
  ⟨(is_old_boundary 900 0 (fun _ => some 0) "t" rfl).1 rfl,
   (is_old_boundary 960 0 (fun _ => some 0) "t" rfl).2.1 rfl,
   (is_old_boundary 840 0 (fun _ => some 0) "t" rfl).2.2 rfl⟩

/-- `struct ColumnConfigResponse` in fivetran.rs. -/
structure ColumnConfigResponse where
  name_in_destination : String
  enabled : Bool
  hashed : Bool
  is_primary_key : Option Bool
deriving DecidableEq

/-- `struct TableConfigResponse` in fivetran.rs. The `HashMap` of columns is
modelled as an association list. -/
structure TableConfigResponse where
  name_in_destination : String
  enabled : Bool
  columns : List (String × ColumnConfigResponse)
  supports_columns_config : Option Bool
deriving DecidableEq

/-- `struct SchemaConfigResponse` in fivetran.rs. -/
structure SchemaConfigResponse where
  name_in_destination : String
  enabled : Bool
  tables : List (String × TableConfigResponse)
deriving DecidableEq

/-- `struct StandardConfigResponse` in fivetran.rs. -/
structure StandardConfigResponse where
  schemas : List (String × SchemaConfigResponse)
  enable_new_by_default : Option Bool
deriving DecidableEq

/-- `struct UpdateConnectorColumn` in fivetran.rs. -/
structure UpdateConnectorColumn where
  enabled : Bool
  hashed : Option Bool
  is_primary_key : Option Bool
deriving DecidableEq

/-- `struct UpdateConnectorTable` in fivetran.rs. -/
structure UpdateConnectorTable where
  enabled : Bool
  columns : List (String × UpdateConnectorColumn)
deriving DecidableEq

/-- `struct UpdateConnectorSchema` in fivetran.rs. -/
structure UpdateConnectorSchema where
  enabled : Bool
  tables : List (String × UpdateConnectorTable)
deriving DecidableEq

/-- The `SKIP_COLUMNS` exclusion list of `pick_schema` (fivetran.rs lines
66-70). -/
def SKIP_COLUMNS : List (String × String × String) :=
  [("public", "Person", "username")]

/-- The per-column transformation inside `pick_schema` (fivetran.rs lines
89-98): enabled iff discovery enabled it and it is not on the exclusion
list; `hashed` forced to `Some(false)`; primary-key marker copied. -/
def pick_column (s_name t_name c_name : String) (c : ColumnConfigResponse) :
    UpdateConnectorColumn :=
  { enabled := c.enabled && !(SKIP_COLUMNS.contains (s_name, t_name, c_name))
    hashed := some false
    is_primary_key := c.is_primary_key }

/-- The per-table transformation inside `pick_schema` (fivetran.rs lines
82-103). -/
def pick_table (s_name t_name : String) (t : TableConfigResponse) :
    UpdateConnectorTable :=
  { enabled := true
    columns := t.columns.map fun p => (p.1, pick_column s_name t_name p.1 p.2) }

/-- The per-schema transformation inside `pick_schema` (fivetran.rs lines
75-107). -/
def pick_schema_entry (s_name : String) (s : SchemaConfigResponse) :
    UpdateConnectorSchema :=
  { enabled := true
    tables := s.tables.map fun p => (p.1, pick_table s_name p.1 p.2) }

/-- `fn pick_schema` (fivetran.rs lines 65-109): maps the discovered tree to
the update tree entry by entry. -/
def pick_schema (schema : StandardConfigResponse) :
    List (String × UpdateConnectorSchema) :=
  schema.schemas.map fun p => (p.1, pick_schema_entry p.1 p.2)

/-- `List.contains` agrees with propositional membership (lawful `BEq`). -/
theorem contains_eq_decide_mem {α} [BEq α] [LawfulBEq α] (l : List α) (x : α) :
    l.contains x = decide (x ∈ l) := by
  by_cases h : x ∈ l <;> simp [List.contains_eq_any_beq, h]

/-- Claim C4: for every (schema, table, column) of the discovered tree,
`pick_schema` enables the schema and the table unconditionally, gives the
column the discovered `enabled` value unless its triple is on the exclusion
list (then forced `false`), forces `hashed` to `false`, and passes the
primary-key marker through unchanged. -/
theorem pick_schema_fields (T : StandardConfigResponse)
    (s_name : String) (s : SchemaConfigResponse) (hs : (s_name, s) ∈ T.schemas) :
    ∃ s', (s_name, s') ∈ pick_schema T ∧ s'.enabled = true ∧
      ∀ t_name t, (t_name, t) ∈ s.tables →
        ∃ t', (t_name, t') ∈ s'.tables ∧ t'.enabled = true ∧
          ∀ c_name c, (c_name, c) ∈ t.columns →
            ∃ c', (c_name, c') ∈ t'.columns ∧
              c'.enabled =
                (if (s_name, t_name, c_name) ∈ SKIP_COLUMNS then false
                 else c.enabled) ∧
              c'.hashed = some false ∧
              c'.is_primary_key = c.is_primary_key := by
  refine ⟨pick_schema_entry s_name s,
    List.mem_map_of_mem (fun p => (p.1, pick_schema_entry p.1 p.2)) hs, rfl,
    fun t_name t ht => ⟨pick_table s_name t_name t,
      List.mem_map_of_mem (fun p => (p.1, pick_table s_name p.1 p.2)) ht, rfl,
      fun c_name c hc => ⟨pick_column s_name t_name c_name c,
        List.mem_map_of_mem (fun p => (p.1, pick_column s_name t_name p.1 p.2)) hc,
        ?_, rfl, rfl⟩⟩⟩
  by_cases hmem : (s_name, t_name, c_name) ∈ SKIP_COLUMNS <;>
    simp [pick_column, contains_eq_decide_mem, hmem]

/-- A sample discovered table holding the excluded `username` column. -/
def sample_table : TableConfigResponse :=
  { name_in_destination := "Person", enabled := true,
    columns := [("username",
      { name_in_destination := "username", enabled := true,
        hashed := true, is_primary_key := some false })],
    supports_columns_config := some true }

/-- A sample discovered schema holding `sample_table`. -/
def sample_schema_config : SchemaConfigResponse :=
  { name_in_destination := "public", enabled := true,
    tables := [("Person", sample_table)] }

/-- A sample discovered tree holding the excluded `public.Person.username`
column. -/
def sample_tree : StandardConfigResponse :=
  { schemas := [("public", sample_schema_config)], enable_new_by_default := none }

/-- Witness for C4: instantiated at the concrete `sample_tree`. -/
theorem pick_schema_fields_witness :
    ∃ s', ("public", s') ∈ pick_schema sample_tree ∧ s'.enabled = true ∧
      ∀ t_name t, (t_name, t) ∈ sample_schema_config.tables →
        ∃ t', (t_name, t') ∈ s'.tables ∧ t'.enabled = true ∧
          ∀ c_name c, (c_name, c) ∈ t.columns →
            ∃ c', (c_name, c') ∈ t'.columns ∧
              c'.enabled =
                (if ("public", t_name, c_name) ∈ SKIP_COLUMNS then false
                 else c.enabled) ∧
              c'.hashed = some false ∧
              c'.is_primary_key = c.is_primary_key :=
  pick_schema_fields sample_tree "public" sample_schema_config
    (List.mem_singleton.2 rfl)

/-- Schema-level keys of a discovered tree. -/
def config_schema_keys (T : StandardConfigResponse) : List String :=
  T.schemas.map Prod.fst

/-- (schema, table) keys of a discovered tree. -/
def config_table_keys (T : StandardConfigResponse) : List (String × String) :=
  T.schemas.flatMap fun s => s.2.tables.map fun t => (s.1, t.1)

/-- (schema, table, column) keys of a discovered tree. -/
def config_column_keys (T : StandardConfigResponse) :
    List (String × String × String) :=
  T.schemas.flatMap fun s =>
    s.2.tables.flatMap fun t => t.2.columns.map fun c => (s.1, t.1, c.1)

/-- Schema-level keys of an update tree. -/
def update_schema_keys (u : List (String × UpdateConnectorSchema)) : List String :=
  u.map Prod.fst

/-- (schema, table) keys of an update tree. -/
def update_table_keys (u : List (String × UpdateConnectorSchema)) :
    List (String × String) :=
  u.flatMap fun s => s.2.tables.map fun t => (s.1, t.1)

/-- (schema, table, column) keys of an update tree. -/
def update_column_keys (u : List (String × UpdateConnectorSchema)) :
    List (String × String × String) :=
  u.flatMap fun s =>
    s.2.tables.flatMap fun t => t.2.columns.map fun c => (s.1, t.1, c.1)

/-- Claim C5: `pick_schema` emits exactly the key set of the discovered tree
at all three levels: the lists of schema keys, (schema, table) keys and
(schema, table, column) keys of the output coincide (with multiplicity and
order) with those of the input, so every discovered key appears exactly
once and no new key is introduced. -/
theorem pick_schema_preserves_keys (T : StandardConfigResponse) :
    update_schema_keys (pick_schema T) = config_schema_keys T ∧
    update_table_keys (pick_schema T) = config_table_keys T ∧
    update_column_keys (pick_schema T) = config_column_keys T := by
  refine ⟨?_, ?_, ?_⟩
  · simp [update_schema_keys, config_schema_keys, pick_schema, List.map_map]
  · simp only [update_table_keys, config_table_keys, pick_schema,
      List.flatMap_map, pick_schema_entry, List.map_map]
    rfl
  · simp only [update_column_keys, config_column_keys, pick_schema,
      List.flatMap_map, pick_schema_entry, pick_table, List.flatMap_map,
      List.map_map]
    rfl

/-- `struct ApiResponse<R>` (fivetran.rs lines 229-234). -/
structure ApiResponse (R : Type) where
  code : String
  data : Option R
  message : Option String
deriving DecidableEq

/-- `receive_api_response_maybe` (fivetran.rs lines 210-227). `status` is the
HTTP status, which the source only logs; `body` is the outcome of decoding
the response body as `ApiResponse<R>` (`Except.error` = serde decode
failure). -/
def receive_api_response_maybe {R : Type} (status : Nat)
    (body : Except String (ApiResponse R)) : Except String (Option R) :=
  match body with
  | Except.error _ => Except.error "request failed"
  | Except.ok r => Except.ok r.data

/-- `receive_api_response` (fivetran.rs lines 195-203). -/
def receive_api_response {R : Type} (status : Nat)
    (body : Except String (ApiResponse R)) : Except String R :=
  match receive_api_response_maybe status body with
  | Except.error e => Except.error e
  | Except.ok (some r) => Except.ok r
  | Except.ok none => Except.error "request failed: no data"

/-- `receive_api_response_empty` (fivetran.rs lines 205-208), used by the
delete operations. -/
def receive_api_response_empty (status : Nat)
    (body : Except String (ApiResponse Unit)) : Except String Unit :=
  match receive_api_response_maybe status body with
  | Except.error e => Except.error e
  | Except.ok _ => Except.ok ()

/-- Claim C3 counterexample: a decodable envelope that reports a remote
failure both ways (HTTP status 500 and error code inside the envelope) yet
carries data. `receive_api_response` returns the data, not the missing-data
error: the source never branches on the status or the envelope code. -/
theorem receive_api_response_ignores_remote_failure :
    receive_api_response 500
        (Except.ok (⟨"Error", some 42, some "boom"⟩ : ApiResponse Nat)) =
      Except.ok 42 ∧
    receive_api_response 500
        (Except.ok (⟨"Error", some 42, some "boom"⟩ : ApiResponse Nat)) ≠
      Except.error "request failed: no data" := by
  refine ⟨rfl, fun h => ?_⟩
  rw [show receive_api_response 500
      (Except.ok (⟨"Error", some 42, some "boom"⟩ : ApiResponse Nat)) =
      Except.ok 42 from rfl] at h
  exact Except.noConfusion h

/-- Claim C3 (amended): for every decoded envelope, a data-expecting call
returns the missing-data error exactly when the envelope's `data` is absent
(which is how remote-reported failures manifest: the HTTP status and the
envelope code are logged but never branched on), and returns the payload
when data is present; delete operations (`receive_api_response_empty`)
return success on every decodable envelope, error or not. -/
theorem receive_api_response_data_behavior {R : Type} (status statusU : Nat)
    (env : ApiResponse R) (envU : ApiResponse Unit) :
    (env.data = none →
      receive_api_response status (Except.ok env) =
        Except.error "request failed: no data") ∧
    (∀ r, env.data = some r →
      receive_api_response status (Except.ok env) = Except.ok r) ∧
    receive_api_response_empty statusU (Except.ok envU) = Except.ok () := by
  refine ⟨fun h => ?_, fun r h => ?_, rfl⟩ <;>
    simp [receive_api_response, receive_api_response_maybe, h]

/-- Witness for C3 (amended): concrete envelopes with and without data, and
a delete-style call on a concrete not-found error envelope. -/
theorem receive_api_response_data_behavior_witness :
    receive_api_response 500
        (Except.ok (⟨"Error", none, some "boom"⟩ : ApiResponse Nat)) =
      Except.error "request failed: no data" ∧
    receive_api_response 200
        (Except.ok (⟨"Success", some 7, none⟩ : ApiResponse Nat)) =
      Except.ok 7 ∧
    receive_api_response_empty 404
        (Except.ok (⟨"NotFound", none, some "gone"⟩ : ApiResponse Unit)) =
      Except.ok () :=
  ⟨(receive_api_response_data_behavior 500 0 (⟨"Error", none, some "boom"⟩ : ApiResponse Nat)
      ⟨"x", none, none⟩).1 rfl,
   (receive_api_response_data_behavior 200 0 (⟨"Success", some 7, none⟩ : ApiResponse Nat)
      ⟨"x", none, none⟩).2.1 7 rfl,
   (receive_api_response_data_behavior 0 404 (⟨"z", none, none⟩ : ApiResponse Nat)
      ⟨"NotFound", none, some "gone"⟩).2.2⟩

/-- The setup-wait loop of `setup_sync` (fivetran.rs lines 23-29): while the
connector's `setup_state` is not "connected", fetch it again. `c` is the
record in hand (initially the `create_connector` response), `polls` the
successive `get_connector` results; `none` models the unbounded loop not
having returned after consuming all of `polls`. -/
def setup_wait : ConnectorResponseV1 → List ConnectorResponseV1 →
    Option ConnectorResponseV1
  | c, [] => if c.status.setup_state = "connected" then some c else none
  | c, p :: rest =>
    if c.status.setup_state = "connected" then some c else setup_wait p rest

/-- The sync-wait loop of `setup_sync` (fivetran.rs lines 46-52): while both
`failed_at` and `succeeded_at` are unset, fetch the connector again. -/
def sync_wait : ConnectorResponseV1 → List ConnectorResponseV1 →
    Option ConnectorResponseV1
  | c, [] =>
    if c.failed_at.isNone && c.succeeded_at.isNone then none else some c
  | c, p :: rest =>
    if c.failed_at.isNone && c.succeeded_at.isNone then sync_wait p rest
    else some c

/-- `enum SchemaChangeHandling` (fivetran.rs lines 915-924). -/
inductive SchemaChangeHandling where
  | AllowAll | AllowColumns | BlockAll
deriving DecidableEq

/-- The serde `SCREAMING_SNAKE_CASE` wire token of `SchemaChangeHandling`. -/
def SchemaChangeHandling.wire : SchemaChangeHandling → String
  | .AllowAll => "ALLOW_ALL"
  | .AllowColumns => "ALLOW_COLUMNS"
  | .BlockAll => "BLOCK_ALL"

/-- `struct UpdateConnectorSchemaRequest` (fivetran.rs lines 908-912). -/
structure UpdateConnectorSchemaRequest where
  schema_change_handling : SchemaChangeHandling
  schemas : List (String × UpdateConnectorSchema)
deriving DecidableEq

/-- `struct CreatedObjects` (fivetran.rs lines 111-114). -/
structure CreatedObjects where
  group : GroupResponse
  destination : DestinationExtendedResponse
deriving DecidableEq

/-- The schema-configuration update request built by `setup_sync`
(fivetran.rs lines 37-40). -/
def setup_sync_schema_request (schema : StandardConfigResponse) :
    UpdateConnectorSchemaRequest :=
  { schema_change_handling := SchemaChangeHandling.BlockAll
    schemas := pick_schema schema }

/-- The sequence of remote responses consumed by one `setup_sync` run, in
call order: the `create_group`, `create_destination` and `create_connector`
responses, the `get_connector` results of the setup-wait loop, the
`reload_connector_schema_config` response, the `start_sync` response, and
the `get_connector` results of the sync-wait loop. -/
structure SetupSyncTrace where
  group : GroupResponse
  destination : DestinationExtendedResponse
  connector0 : ConnectorResponseV1
  setup_polls : List ConnectorResponseV1
  schema : StandardConfigResponse
  sync0 : ConnectorResponseV1
  sync_polls : List ConnectorResponseV1
deriving DecidableEq

/-- `pub async fn setup_sync` (fivetran.rs lines 11-62), as a function of the
trace of remote responses. The result is `none` while either unbounded
polling loop has not yet terminated on the given responses; otherwise it is
the submitted schema-update request, the message logged at lines 56-60
("failed" or "succeeded"), and the Rust return value `Ok(CreatedObjects)`
(an `Except` mirroring `anyhow::Result`; transport failures of individual
calls, which `?` would propagate, are outside this trace model). -/
def setup_sync (tr : SetupSyncTrace) :
    Option (UpdateConnectorSchemaRequest × String × Except String CreatedObjects) :=
  match setup_wait tr.connector0 tr.setup_polls with
  | none => none
  | some _ =>
    match sync_wait tr.sync0 tr.sync_polls with
    | none => none
    | some connector =>
      some (setup_sync_schema_request tr.schema,
        if connector.failed_at.isSome then "failed" else "succeeded",
        Except.ok { group := tr.group, destination := tr.destination })

/-- Claim C6: the setup-wait loop returns only a record whose `setup_state`
is "connected": on the fetched sequence [incomplete, incomplete, connected]
it returns the connected record on the third fetch (and has not returned
after only two); on any sequence never reaching "connected" — including one
stuck at "broken" — it never returns. -/
theorem setup_wait_terminal (c0 c1 c2 : ConnectorResponseV1)
    (h0 : c0.status.setup_state = "incomplete")
    (h1 : c1.status.setup_state = "incomplete")
    (h2 : c2.status.setup_state = "connected") :
    setup_wait c0 [c1, c2] = some c2 ∧
    setup_wait c0 [c1] = none ∧
    ∀ (d : ConnectorResponseV1) (polls : List ConnectorResponseV1),
      d.status.setup_state ≠ "connected" →
      (∀ p ∈ polls, p.status.setup_state ≠ "connected") →
      setup_wait d polls = none := by
  refine ⟨by simp [setup_wait, h0, h1, h2], by simp [setup_wait, h0, h1], ?_⟩
  intro d polls
  induction polls generalizing d with
  | nil => intro hd _; simp [setup_wait, hd]
  | cons p rest ih =>
    intro hd hp
    rw [setup_wait, if_neg hd]
    exact ih p (hp p (List.mem_cons_self p rest))
      (fun q hq => hp q (List.mem_cons_of_mem p hq))

/-- A sample connector status with the given `setup_state`. -/
def sample_status (st : String) : ConnectorStatusResponse :=
  { update_state := "on_schedule", setup_state := st, sync_state := "scheduled",
    is_historical_sync := false, schema_status := none, rescheduled_for := none }

/-- A sample connector record with the given `setup_state`, `failed_at` and
`succeeded_at`. -/
def sample_connector (st : String) (fa sa : Option String) :
    ConnectorResponseV1 :=
  { id := "conn-1", service := "postgres", schema := "gel", paused := true,
    status := sample_status st, sync_frequency := .Value15, group_id := "grp-1",
    service_version := 1, created_at := "2026-01-01T00:00:00Z",
    pause_after_trial := true, schedule_type := "auto", daily_sync_time := none,
    succeeded_at := sa, connected_by := none, failed_at := fa,
    private_link_id := none, proxy_agent_id := none,
    hybrid_deployment_agent_id := none }

/-- Witness for C6: concrete incomplete/connected/broken records. -/
theorem setup_wait_terminal_witness :
    setup_wait (sample_connector "incomplete" none none)
        [sample_connector "incomplete" none none,
         sample_connector "connected" none none] =
      some (sample_connector "connected" none none) ∧
    setup_wait (sample_connector "incomplete" none none)
        [sample_connector "incomplete" none none] = none ∧
    setup_wait (sample_connector "broken" none none)
        [sample_connector "broken" none none] = none := by
  have h := setup_wait_terminal (sample_connector "incomplete" none none)
    (sample_connector "incomplete" none none)
    (sample_connector "connected" none none) rfl rfl rfl
  refine ⟨h.1, h.2.1, h.2.2 _ _ (by decide) ?_⟩
  intro p hp
  rw [List.mem_singleton] at hp
  subst hp
  decide

/-- If the record in hand and a run of polled records are all still running
(`failed_at` and `succeeded_at` both unset), the sync-wait loop keeps
polling past them. -/
theorem sync_wait_skips_running (run : List ConnectorResponseV1)
    (c0 r : ConnectorResponseV1) (rest : List ConnectorResponseV1)
    (h0 : c0.failed_at = none ∧ c0.succeeded_at = none)
    (hrun : ∀ p ∈ run, p.failed_at = none ∧ p.succeeded_at = none) :
    sync_wait c0 (run ++ r :: rest) = sync_wait r rest := by
  induction run generalizing c0 with
  | nil => simp [sync_wait, h0.1, h0.2]
  | cons p tail ih =>
    rw [List.cons_append, sync_wait, h0.1, h0.2]
    exact ih p (hrun p (List.mem_cons_self p tail))
      (fun q hq => hrun q (List.mem_cons_of_mem p hq))

/-- A sample `create_group` response. -/
def sample_group : GroupResponse :=
  { id := "grp-1", name := "test_2026_01_01T00_00_00",
    created_at := "2026-01-01T00:00:00Z" }

/-- A sample `create_destination` response. -/
def sample_destination : DestinationExtendedResponse :=
  { id := "dest-1", service := "postgres_warehouse",
    region := .GCP_US_EAST4, setup_status := .connected, group_id := "grp-1",
    time_zone_offset := .utc, daylight_saving_time_enabled := none,
    local_processing_agent_id := none, private_link_id := none,
    proxy_agent_id := none, hybrid_deployment_agent_id := none }

/-- A concrete trace whose sync-wait sequence ends immediately in a record
with `failed_at` set and `succeeded_at` unset. -/
def failed_sync_trace : SetupSyncTrace :=
  { group := sample_group, destination := sample_destination,
    connector0 := sample_connector "connected" none none,
    setup_polls := [],
    schema := sample_tree,
    sync0 := sample_connector "connected" none none,
    sync_polls :=
      [sample_connector "connected" (some "2026-01-01T00:10:00Z") none] }

/-- Claim C2 counterexample: on the concrete `failed_sync_trace` the
sync-wait loop terminates and "failed" is logged, but `setup_sync` returns
`Except.ok` with the created objects — it does NOT return a failure
indication to its caller, contradicting the claim's last clause. -/
theorem setup_sync_failed_returns_ok :
    setup_sync failed_sync_trace =
      some (setup_sync_schema_request sample_tree, "failed",
        Except.ok { group := sample_group, destination := sample_destination }) := by
  rfl

/-- Claim C2 (amended): whenever setup-wait completes and the sync-wait poll
sequence ends in a record with `failed_at` set and `succeeded_at` unset
(all earlier records still running), the sync-wait loop terminates, the
orchestrator logs "failed" and proceeds without throwing — but `setup_sync`
returns `Except.ok` carrying the created Group and Destination (a success
value, not a failure indication): the sync failure is reported only through
the log. -/
theorem setup_sync_sync_failure (tr : SetupSyncTrace) (d c : ConnectorResponseV1)
    (run : List ConnectorResponseV1) (ft : String)
    (hsetup : setup_wait tr.connector0 tr.setup_polls = some d)
    (hpolls : tr.sync_polls = run ++ [c])
    (hrun0 : tr.sync0.failed_at = none ∧ tr.sync0.succeeded_at = none)
    (hrun : ∀ p ∈ run, p.failed_at = none ∧ p.succeeded_at = none)
    (hfail : c.failed_at = some ft) (hsucc : c.succeeded_at = none) :
    setup_sync tr =
      some (setup_sync_schema_request tr.schema, "failed",
        Except.ok { group := tr.group, destination := tr.destination }) := by
  have hsync : sync_wait tr.sync0 tr.sync_polls = some c := by
    rw [hpolls, sync_wait_skips_running run tr.sync0 c [] hrun0 hrun]
    simp [sync_wait, hfail]
  simp [setup_sync, hsetup, hsync, hfail]

/-- A concrete trace with one still-running poll before the failed record. -/
def failed_sync_trace2 : SetupSyncTrace :=
  { group := sample_group, destination := sample_destination,
    connector0 := sample_connector "connected" none none,
    setup_polls := [],
    schema := sample_tree,
    sync0 := sample_connector "connected" none none,
    sync_polls :=
      [sample_connector "connected" none none,
       sample_connector "connected" (some "2026-01-01T00:10:00Z") none] }

/-- Witness for C2 (amended): instantiated on `failed_sync_trace2`. -/
theorem setup_sync_sync_failure_witness :
    setup_sync failed_sync_trace2 =
      some (setup_sync_schema_request sample_tree, "failed",
        Except.ok { group := sample_group, destination := sample_destination }) := by
  have h := setup_sync_sync_failure failed_sync_trace2
    (sample_connector "connected" none none)
    (sample_connector "connected" (some "2026-01-01T00:10:00Z") none)
    [sample_connector "connected" none none] "2026-01-01T00:10:00Z"
    rfl rfl ⟨rfl, rfl⟩
    (by
      intro p hp
      rw [List.mem_singleton] at hp
      subst hp
      exact ⟨rfl, rfl⟩)
    rfl rfl
  exact h

/-- Claim C10: the schema-configuration update request built and submitted
by `setup_sync` always carries `schema_change_handling = BlockAll` (wire
token "BLOCK_ALL", whose documented semantics is that all schemas, tables
and columns appearing in the source after initial setup are excluded from
syncs), and every request `setup_sync` reports having submitted is exactly
`setup_sync_schema_request` of the reloaded tree. -/
theorem setup_sync_blocks_schema_changes (schema : StandardConfigResponse)
    (tr : SetupSyncTrace) :
    (setup_sync_schema_request schema).schema_change_handling =
      SchemaChangeHandling.BlockAll ∧
    (setup_sync_schema_request schema).schema_change_handling.wire =
      "BLOCK_ALL" ∧
    ∀ req msg res, setup_sync tr = some (req, msg, res) →
      req = setup_sync_schema_request tr.schema := by
  refine ⟨rfl, rfl, ?_⟩
  intro req msg res h
  unfold setup_sync at h
  cases hsw : setup_wait tr.connector0 tr.setup_polls with
  | none => rw [hsw] at h; exact absurd h (by simp)
  | some d =>
    rw [hsw] at h
    cases hsy : sync_wait tr.sync0 tr.sync_polls with
    | none => rw [hsy] at h; exact absurd h (by simp)
    | some c =>
      rw [hsy] at h
      have := (Option.some.inj h)
      exact (congrArg Prod.fst this).symm

/-- Witness for C10: the request of the concrete `failed_sync_trace` run. -/
theorem setup_sync_blocks_schema_changes_witness :
    (setup_sync_schema_request sample_tree).schema_change_handling.wire =
      "BLOCK_ALL" ∧
    setup_sync_schema_request sample_tree =
      setup_sync_schema_request failed_sync_trace.schema :=
  ⟨(setup_sync_blocks_schema_changes sample_tree failed_sync_trace).2.1,
   (setup_sync_blocks_schema_changes sample_tree failed_sync_trace).2.2
      (setup_sync_schema_request sample_tree) "failed"
      (Except.ok { group := sample_group, destination := sample_destination })
      (by rfl)⟩

/-- One deletion issued against the remote platform. -/
inductive DeleteAction where
  | connector (id : String)
  | destination (id : String)
  | group (id : String)
deriving DecidableEq

/-- The deletions issued by `cleanup` (fivetran.rs lines 116-129), in program
order: every connector of the `list_connectors_of_group` response
`connectors`, then the destination, then the group. -/
def cleanup_actions (objects : CreatedObjects) (connectors : ConnectorList) :
    List DeleteAction :=
  (connectors.items.map fun c => DeleteAction.connector c.id) ++
    [DeleteAction.destination objects.destination.id,
     DeleteAction.group objects.group.id]

/-- The deletions issued by `cleanup_old` (fivetran.rs lines 131-154), in
program order: sweep (a) deletes every listed connector classified old;
sweep (b) walks the `list_destinations` response `dl`, fetches each owning
group through the `get_group` oracle `groups`, and deletes destination then
group when the group is classified old. `now` and `parse` are the clock and
timestamp parsing of `is_old`. -/
def cleanup_old_actions (now : Int) (parse : String → Option Int)
    (cl : ConnectorList) (dl : ListDestinationResponse)
    (groups : String → GroupResponse) : List DeleteAction :=
  (cl.items.flatMap fun c =>
    if is_old now parse c.created_at then [DeleteAction.connector c.id]
    else []) ++
  dl.items.flatMap fun d =>
    if is_old now parse (groups d.group_id).created_at then
      [DeleteAction.destination d.id, DeleteAction.group d.group_id]
    else []

/-- Executes planned deletions left to right against the deletion oracle
`del`, stopping at the first failure as the `?` operator does: returns the
actions actually attempted and the propagated result. -/
def run_deletes (del : DeleteAction → Except String Unit) :
    List DeleteAction → List DeleteAction × Except String Unit
  | [] => ([], Except.ok ())
  | a :: rest =>
    match del a with
    | Except.error e => ([a], Except.error e)
    | Except.ok _ =>
      let r := run_deletes del rest
      (a :: r.1, r.2)

/-- `pub async fn cleanup` (fivetran.rs lines 116-129) over the deletion
oracle `del`: attempts its planned deletions in order, failing fast. -/
def cleanup (del : DeleteAction → Except String Unit)
    (objects : CreatedObjects) (connectors : ConnectorList) :
    List DeleteAction × Except String Unit :=
  run_deletes del (cleanup_actions objects connectors)

/-- `pub async fn cleanup_old` (fivetran.rs lines 131-154) over the deletion
oracle `del`: attempts its planned deletions in order, failing fast. -/
def cleanup_old (del : DeleteAction → Except String Unit) (now : Int)
    (parse : String → Option Int) (cl : ConnectorList)
    (dl : ListDestinationResponse) (groups : String → GroupResponse) :
    List DeleteAction × Except String Unit :=
  run_deletes del (cleanup_old_actions now parse cl dl groups)

/-- When every deletion succeeds, the whole planned sequence is executed and
the run succeeds. -/
theorem run_deletes_all_ok (del : DeleteAction → Except String Unit)
    (l : List DeleteAction) (h : ∀ a ∈ l, del a = Except.ok ()) :
    run_deletes del l = (l, Except.ok ()) := by
  induction l with
  | nil => rfl
  | cons a rest ih =>
    simp [run_deletes, h a (List.mem_cons_self a rest),
      ih (fun b hb => h b (List.mem_cons_of_mem a hb))]

/-- Execution stops at the first failing deletion: the successful prefix and
the failing action are attempted, nothing after it, and the error is
returned. -/
theorem run_deletes_first_failure (del : DeleteAction → Except String Unit)
    (pre post : List DeleteAction) (a : DeleteAction) (e : String)
    (hpre : ∀ b ∈ pre, del b = Except.ok ()) (ha : del a = Except.error e) :
    run_deletes del (pre ++ a :: post) = (pre ++ [a], Except.error e) := by
  induction pre with
  | nil => simp [run_deletes, ha]
  | cons b rest ih =>
    simp [run_deletes, hpre b (List.mem_cons_self b rest),
      ih (fun q hq => hpre q (List.mem_cons_of_mem b hq))]

/-- A list produced for one element of a `flatMap` embeds, in order, into the
whole `flatMap`. -/
theorem sublist_flatMap_of_mem {α β : Type} (f : α → List β) (l : List α)
    (x : α) (hx : x ∈ l) (sub : List β) (hsub : List.Sublist sub (f x)) :
    List.Sublist sub (l.flatMap f) := by
  induction l with
  | nil => cases hx
  | cons a rest ih =>
    rw [List.flatMap_cons]
    rcases List.mem_cons.1 hx with h | h
    · subst h
      exact hsub.trans (List.sublist_append_left _ _)
    · exact (ih h).trans (List.sublist_append_right _ _)

/-- Claim C7: in both teardown paths a Group deletion is never issued before
the deletion of its dependents. When every deletion succeeds, `cleanup`
executes exactly the deletion of every listed connector, then the
destination, then the group, in that order; and in the sweeper's
destination sweep every swept destination's deletion occurs before its
owning group's deletion. -/
theorem teardown_dependency_order (del : DeleteAction → Except String Unit)
    (objects : CreatedObjects) (connectors : ConnectorList)
    (now : Int) (parse : String → Option Int) (cl : ConnectorList)
    (dl : ListDestinationResponse) (groups : String → GroupResponse)
    (hdel : ∀ a, del a = Except.ok ()) :
    (cleanup del objects connectors).1 =
      (connectors.items.map fun c => DeleteAction.connector c.id) ++
        [DeleteAction.destination objects.destination.id,
         DeleteAction.group objects.group.id] ∧
    ∀ d ∈ dl.items,
      is_old now parse (groups d.group_id).created_at = true →
      List.Sublist
        [DeleteAction.destination d.id, DeleteAction.group d.group_id]
        (cleanup_old del now parse cl dl groups).1 := by
  constructor
  · rw [cleanup, run_deletes_all_ok del _ (fun a _ => hdel a)]
    rfl
  · intro d hd hold
    rw [cleanup_old, run_deletes_all_ok del _ (fun a _ => hdel a)]
    refine List.Sublist.trans
      (sublist_flatMap_of_mem _ dl.items d hd _ ?_)
      (List.sublist_append_right _ _)
    rw [if_pos hold]

/-- A sample `list_connectors` item. -/
def sample_connector_item : ConnectorResponse :=
  { id := "conn-1", service := "postgres", schema := "gel", paused := true,
    status := sample_status "connected", sync_frequency := 15,
    group_id := "grp-1", connected_by := "user",
    created_at := "2026-01-01T00:00:00Z", pause_after_trial := true,
    schedule_type := "auto", daily_sync_time := none, succeeded_at := none,
    failed_at := none }

/-- A sample `list_destinations` item. -/
def sample_destination_item : DestinationResponse :=
  { group_id := "grp-1", id := "dest-1", region := .GCP_US_EAST4,
    service := "postgres_warehouse", setup_status := .connected,
    time_zone_offset := .utc }

/-- Witness for C7: a run with one connector, one destination, and a group
classified old (its timestamp does not parse). -/
theorem teardown_dependency_order_witness :
    (cleanup (fun _ => Except.ok ())
        { group := sample_group, destination := sample_destination }
        ⟨[sample_connector_item]⟩).1 =
      [DeleteAction.connector "conn-1", DeleteAction.destination "dest-1",
       DeleteAction.group "grp-1"] ∧
    List.Sublist
      [DeleteAction.destination "dest-1", DeleteAction.group "grp-1"]
      (cleanup_old (fun _ => Except.ok ()) 0 (fun _ => none) ⟨[]⟩
        ⟨[sample_destination_item]⟩ (fun _ => sample_group)).1 := by
  have h := teardown_dependency_order (fun _ => Except.ok ())
    { group := sample_group, destination := sample_destination }
    ⟨[sample_connector_item]⟩ 0 (fun _ => none) ⟨[]⟩
    ⟨[sample_destination_item]⟩ (fun _ => sample_group) (fun _ => rfl)
  exact ⟨h.1.trans rfl,
    h.2 sample_destination_item (List.mem_singleton.2 rfl) rfl⟩

/-- Claim C9: both teardown paths propagate the first deletion failure to
their caller and attempt no further deletions after it: if the planned
deletion sequence of `cleanup` (resp. `cleanup_old`) splits as
`pre ++ a :: post` with every deletion of `pre` succeeding and `a` failing
with `e`, the attempted deletions are exactly `pre ++ [a]` — nothing of
`post` is attempted — and the error `e` is returned. -/
theorem teardown_fail_fast (del : DeleteAction → Except String Unit)
    (objects : CreatedObjects) (connectors : ConnectorList)
    (now : Int) (parse : String → Option Int) (cl : ConnectorList)
    (dl : ListDestinationResponse) (groups : String → GroupResponse)
    (pre post pre2 post2 : List DeleteAction) (a a2 : DeleteAction)
    (e e2 : String)
    (h1 : cleanup_actions objects connectors = pre ++ a :: post)
    (h2 : ∀ b ∈ pre, del b = Except.ok ())
    (h3 : del a = Except.error e)
    (h4 : cleanup_old_actions now parse cl dl groups = pre2 ++ a2 :: post2)
    (h5 : ∀ b ∈ pre2, del b = Except.ok ())
    (h6 : del a2 = Except.error e2) :
    cleanup del objects connectors = (pre ++ [a], Except.error e) ∧
    cleanup_old del now parse cl dl groups =
      (pre2 ++ [a2], Except.error e2) := by
  constructor
  · rw [cleanup, h1]
    exact run_deletes_first_failure del pre post a e h2 h3
  · rw [cleanup_old, h4]
    exact run_deletes_first_failure del pre2 post2 a2 e2 h5 h6

/-- Witness for C9: the destination deletion fails; `cleanup` stops after it
(the group is never deleted) and the sweeper's sweep stops before the
owning group's deletion. -/
theorem teardown_fail_fast_witness :
    cleanup
        (fun a => if a = DeleteAction.destination "dest-1" then
          Except.error "boom" else Except.ok ())
        { group := sample_group, destination := sample_destination }
        ⟨[sample_connector_item]⟩ =
      ([DeleteAction.connector "conn-1", DeleteAction.destination "dest-1"],
        Except.error "boom") ∧
    cleanup_old
        (fun a => if a = DeleteAction.destination "dest-1" then
          Except.error "boom" else Except.ok ())
        0 (fun _ => none) ⟨[]⟩ ⟨[sample_destination_item]⟩
        (fun _ => sample_group) =
      ([DeleteAction.destination "dest-1"], Except.error "boom") := by
  have h := teardown_fail_fast
    (fun a => if a = DeleteAction.destination "dest-1" then
      Except.error "boom" else Except.ok ())
    { group := sample_group, destination := sample_destination }
    ⟨[sample_connector_item]⟩ 0 (fun _ => none) ⟨[]⟩
    ⟨[sample_destination_item]⟩ (fun _ => sample_group)
    [DeleteAction.connector "conn-1"] [DeleteAction.group "grp-1"]
    [] [DeleteAction.group "grp-1"]
    (DeleteAction.destination "dest-1") (DeleteAction.destination "dest-1")
    "boom" "boom"
    rfl
    (by
      intro b hb
      rw [List.mem_singleton] at hb
      subst hb
      rfl)
    rfl rfl (fun b hb => absurd hb (List.not_mem_nil b)) rfl
  exact h

end Fivetran
